import Mathlib

/-!
Shallow embedding of the `imxrt-rt-gen` linker-script generator
(`src/lib.rs` and `src/generate/link.rs`) and proofs about it.

Machine words (`u32`/`u64`) are modelled as `Nat`: the generator never
performs arithmetic on them, it only formats them (decimal `Display` and
`{:#X}` upper-case hexadecimal).  The word type's alignment
(`std::mem::align_of::<W>()`, 4 for `u32`, 8 for `u64`) is passed to the
render functions as an explicit `align : Nat` parameter.

The Rust source stores regions and sections in `std::collections::HashMap`,
whose iteration order is unspecified (and randomized per process).  The
embedding keeps each map as an insertion-ordered association list (the map
*contents*), and the renderer additionally receives the iteration orders
`ro` and `so` (lists of keys) as parameters; any permutation of the stored
keys is a possible `HashMap` iteration order.
-/

set_option maxRecDepth 16000

namespace ImxrtRtGen

/-- Upper-case hexadecimal with `0x` front marker, the form Rust's `{:#X}`
format specifier produces for unsigned integers. -/
def upperHex (n : Nat) : String :=
  "0x" ++ String.mk ((Nat.toDigits 16 n).map Char.toUpper)

/-- `pub struct RegionID(String)` — an ID given to a region. -/
structure RegionID where
  id : String
deriving DecidableEq, Repr

/-- `pub struct SectionID(String)` — an ID given to a section. -/
structure SectionID where
  id : String
deriving DecidableEq, Repr

/-- `enum LinkerError` from `src/lib.rs`.  The `IoError` variant carries a
sink failure; the pure model's sink (a `String`) cannot fail, so the
variant is never produced here. -/
inductive LinkerError where
  | UnknownVMA (r : RegionID)
  | UnknownLMA (r : RegionID)
  | DuplicateRegion (n : String)
  | DuplicateSection (n : String)
  | MissingSection (n : String)
  | IoError (msg : String)
deriving DecidableEq, Repr

/-- `enum SectionSize<W>` — how a section is sized. -/
inductive SectionSize where
  | linker
  | fixed (w : Nat)
  | stack
  | heap
deriving DecidableEq, Repr

/-- `struct Section<W>` from `src/lib.rs`.  The source field `prefix` is
called `pfx` here. -/
structure Section where
  priority : Int
  name : String
  vma : RegionID
  lma : Option RegionID
  size : SectionSize
  pfx : Bool
  linker_preamble : Option String
deriving DecidableEq, Repr

/-- `i32::max_value()`. -/
def i32Max : Int := 2147483647

/-- `Section::heap`. -/
def Section.heap (vma : RegionID) : Section :=
  { priority := i32Max
    size := SectionSize.heap
    pfx := false
    name := "heap"
    vma := vma
    lma := none
    linker_preamble := none }

/-- `Section::stack`. -/
def Section.stack (vma : RegionID) : Section :=
  { priority := i32Max - 1
    size := SectionSize.stack
    pfx := false
    name := "stack"
    vma := vma
    lma := none
    linker_preamble := none }

/-- `Section::boot_config`. -/
def Section.boot_config (size : Nat) (name : String) (vma : RegionID) : Section :=
  { priority := -1
    size := SectionSize.fixed size
    pfx := false
    name := name
    vma := vma
    lma := none
    linker_preamble := none }

/-- `Section::vector_table`. -/
def Section.vector_table (vma : RegionID) (lma : Option RegionID) : Section :=
  { priority := 0
    size := SectionSize.linker
    pfx := false
    name := "vector_table"
    vma := vma
    lma := lma
    linker_preamble := some "LONG(__start_stack);" }

/-- `Section::text`. -/
def Section.text (vma : RegionID) (lma : Option RegionID) : Section :=
  { priority := 1
    size := SectionSize.linker
    pfx := false
    name := "text"
    vma := vma
    lma := lma
    linker_preamble := none }

/-- `Section::data`. -/
def Section.data (pfx : Bool) (vma : RegionID) (lma : Option RegionID) : Section :=
  { priority := if pfx then 102 else 2
    size := SectionSize.linker
    pfx := pfx
    name := "data"
    vma := vma
    lma := lma
    linker_preamble := none }

/-- `Section::rodata`. -/
def Section.rodata (pfx : Bool) (vma : RegionID) (lma : Option RegionID) : Section :=
  { priority := if pfx then 103 else 3
    size := SectionSize.linker
    pfx := pfx
    name := "rodata"
    vma := vma
    lma := lma
    linker_preamble := none }

/-- `Section::bss`. -/
def Section.bss (pfx : Bool) (vma : RegionID) (lma : Option RegionID) : Section :=
  { priority := if pfx then 104 else 4
    size := SectionSize.linker
    pfx := pfx
    name := "bss"
    vma := vma
    lma := lma
    linker_preamble := none }

/-- `struct Region<W>`. -/
structure Region where
  name : String
  origin : Nat
  size : Nat
deriving DecidableEq, Repr

/-- `struct LinkerScript<W>`: maps from name to region / section.  The
association lists record the `HashMap` *contents* in insertion order;
iteration order is a separate parameter of the renderer. -/
structure LinkerScript where
  regions : List (String × Region)
  sections : List (String × Section)
deriving DecidableEq, Repr

/-- `LinkerScript::new`. -/
def LinkerScript.new : LinkerScript :=
  { regions := [], sections := [] }

/-- Commonly used FLASH region name (`pub const FLASH`). -/
def FLASH : String := "FLASH"

/-- Commonly used RAM region name (`pub const RAM`). -/
def RAM : String := "RAM"

/-- `LinkerScript::region`: add a named memory region.  `&mut self` with a
`Result` return is modelled by returning the result together with the
(possibly unchanged) state. -/
def LinkerScript.region (ls : LinkerScript) (name : String) (origin size : Nat) :
    Except LinkerError RegionID × LinkerScript :=
  if (ls.regions.lookup name).isSome then
    (Except.error (LinkerError.DuplicateRegion name), ls)
  else
    (Except.ok ⟨name⟩,
      { ls with regions := ls.regions ++ [(name, { name := name, origin := origin, size := size })] })

/-- `LinkerScript::add_section`. -/
def LinkerScript.addSection (ls : LinkerScript) (s : Section) :
    Except LinkerError SectionID × LinkerScript :=
  if (ls.sections.lookup s.name).isSome then
    (Except.error (LinkerError.DuplicateSection s.name), ls)
  else
    (Except.ok ⟨s.name⟩, { ls with sections := ls.sections ++ [(s.name, s)] })

/-- `LinkerScript::stack`. -/
def LinkerScript.stack (ls : LinkerScript) (vma : RegionID) :
    Except LinkerError SectionID × LinkerScript :=
  ls.addSection (Section.stack vma)

/-- `LinkerScript::heap`. -/
def LinkerScript.heap (ls : LinkerScript) (vma : RegionID) :
    Except LinkerError SectionID × LinkerScript :=
  ls.addSection (Section.heap vma)

/-- `LinkerScript::boot_config`. -/
def LinkerScript.boot_config (ls : LinkerScript) (size : Nat) (name : String) (vma : RegionID) :
    Except LinkerError SectionID × LinkerScript :=
  ls.addSection (Section.boot_config size name vma)

/-- `LinkerScript::vector_table`. -/
def LinkerScript.vector_table (ls : LinkerScript) (vma : RegionID) (lma : Option RegionID) :
    Except LinkerError SectionID × LinkerScript :=
  ls.addSection (Section.vector_table vma lma)

/-- `LinkerScript::text`. -/
def LinkerScript.text (ls : LinkerScript) (vma : RegionID) (lma : Option RegionID) :
    Except LinkerError SectionID × LinkerScript :=
  ls.addSection (Section.text vma lma)

/-- `LinkerScript::data`. -/
def LinkerScript.data (ls : LinkerScript) (pfx : Bool) (vma : RegionID) (lma : Option RegionID) :
    Except LinkerError SectionID × LinkerScript :=
  ls.addSection (Section.data pfx vma lma)

/-- `LinkerScript::rodata`. -/
def LinkerScript.rodata (ls : LinkerScript) (pfx : Bool) (vma : RegionID) (lma : Option RegionID) :
    Except LinkerError SectionID × LinkerScript :=
  ls.addSection (Section.rodata pfx vma lma)

/-- `LinkerScript::bss`. -/
def LinkerScript.bss (ls : LinkerScript) (pfx : Bool) (vma : RegionID) (lma : Option RegionID) :
    Except LinkerError SectionID × LinkerScript :=
  ls.addSection (Section.bss pfx vma lma)

/-!
The renderer, `src/generate/link.rs`.  Each `render_*_section` function is
modelled as the list of lines it writes (each `writeln!` contributes one
list element, without the trailing newline it appends); the full render is
the concatenation of all lines, each followed by `"\n"`.
-/

/-- The accumulator-update line
`__{region}_used = __{region}_used + SIZEOF(.{name});` shared by the
linker-sized and fixed-size emitters. -/
def usedUpdate (region name : String) : String :=
  "\t__" ++ region ++ "_used = __" ++ region ++ "_used + SIZEOF(." ++ name ++ ");"

/-- First half of `render_linker_section`: block header, alignment, start
symbol, optional preamble, input-section collection, alignment, end
symbol (writes 1-8 of the source function). -/
def linkerSectionHead (align : Nat) (s : Section) : List String :=
  ["\t." ++ s.name ++ " :",
   "\t\x7b",
   "\t\t. = ALIGN(" ++ Nat.repr align ++ ");",
   "\t\t__start_" ++ s.name ++ " = .;"]
  ++ (match s.linker_preamble with
      | some p => ["\t\t" ++ p]
      | none => [])
  ++ ["\t\t*(." ++ s.name ++ " ." ++ s.name ++ ".*);",
      "\t\t. = ALIGN(" ++ Nat.repr align ++ ");",
      "\t\t__end_" ++ s.name ++ " = .;"]

/-- `render_linker_section`: the head above, then the region binding
(`AT>` and a `LOADADDR` symbol when an LMA is present), then the
accumulator updates, then a blank line. -/
def renderLinkerSection (align : Nat) (s : Section) : List String :=
  linkerSectionHead align s
  ++ (match s.lma with
      | some l =>
        ["\t\x7d > " ++ s.vma.id ++ " AT> " ++ l.id,
         "\t__load_" ++ s.name ++ " = LOADADDR(." ++ s.name ++ ");",
         usedUpdate s.vma.id s.name,
         usedUpdate l.id s.name]
      | none =>
        ["\t\x7d > " ++ s.vma.id,
         usedUpdate s.vma.id s.name])
  ++ [""]

/-- `render_heap_section`. -/
def renderHeapSection (align : Nat) (s : Section) : List String :=
  ["\t." ++ s.name ++ " :",
   "\t\x7b",
   "\t\t. = __" ++ s.vma.id ++ "_origin + __" ++ s.vma.id ++ "_used;",
   "\t\t. = ALIGN(" ++ Nat.repr align ++ ");",
   "\t\t__start_" ++ s.name ++ " = .;",
   "\t\t. = __" ++ s.vma.id ++ "_origin + __" ++ s.vma.id ++ "_size;",
   "\t\t__end_" ++ s.name ++ " = .;",
   "\t\x7d > " ++ s.vma.id,
   ""]

/-- `render_stack_section`: like the heap but with `__end_{name}` at the
low boundary and `__start_{name}` at the region ceiling. -/
def renderStackSection (align : Nat) (s : Section) : List String :=
  ["\t." ++ s.name ++ " :",
   "\t\x7b",
   "\t\t. = __" ++ s.vma.id ++ "_origin + __" ++ s.vma.id ++ "_used;",
   "\t\t. = ALIGN(" ++ Nat.repr align ++ ");",
   "\t\t__end_" ++ s.name ++ " = .;",
   "\t\t. = __" ++ s.vma.id ++ "_origin + __" ++ s.vma.id ++ "_size;",
   "\t\t__start_" ++ s.name ++ " = .;",
   "\t\x7d > " ++ s.vma.id,
   ""]

/-- `render_fixed_section`. -/
def renderFixedSection (s : Section) (size : Nat) : List String :=
  ["\t." ++ s.name ++ " :",
   "\t\x7b",
   "\t\t__start_" ++ s.name ++ " = .;",
   "\t\t. += " ++ Nat.repr size,
   "\t\t__end_" ++ s.name ++ " = .;",
   "\t\x7d > " ++ s.vma.id,
   usedUpdate s.vma.id s.name,
   ""]

/-- The per-section dispatch of `render`'s match on `section.size`. -/
def renderSection (align : Nat) (s : Section) : List String :=
  match s.size with
  | SectionSize.linker => renderLinkerSection align s
  | SectionSize.heap => renderHeapSection align s
  | SectionSize.stack => renderStackSection align s
  | SectionSize.fixed size => renderFixedSection s size

/-- The fixed file header emitted by the single big `writeln!` at the top
of `render` (the literal itself ends in a newline; `renderText` adds the
one `writeln!` appends). -/
def headerText : String :=
  "INCLUDE device.x\nENTRY(Reset);\nEXTERN(__RESET_VECTOR); /* depends on the `Reset` symbol */\n\n/* # Exception vectors */\n/* This is effectively weak aliasing at the linker level */\n/* The user can override any of these aliases by defining the corresponding symbol themselves (cf.\n   the `exception!` macro) */\nEXTERN(__EXCEPTIONS); /* depends on all the these PROVIDED symbols */\n\nEXTERN(DefaultHandler);\n\nPROVIDE(NonMaskableInt = DefaultHandler);\nEXTERN(HardFaultTrampoline);\nPROVIDE(MemoryManagement = DefaultHandler);\nPROVIDE(BusFault = DefaultHandler);\nPROVIDE(UsageFault = DefaultHandler);\nPROVIDE(SecureFault = DefaultHandler);\nPROVIDE(SVCall = DefaultHandler);\nPROVIDE(DebugMonitor = DefaultHandler);\nPROVIDE(PendSV = DefaultHandler);\nPROVIDE(SysTick = DefaultHandler);\n\nPROVIDE(DefaultHandler = DefaultHandler_);\nPROVIDE(HardFault = HardFault_);\n\n/* # Interrupt vectors */\nEXTERN(__INTERRUPTS); /* `static` variable similar to `__EXCEPTIONS` */\n"

/-- One `MEMORY` block line:
`{name} : ORIGIN = {origin:#X}, LENGTH = {size:#X}`. -/
def memoryLine (r : Region) : String :=
  "\t" ++ r.name ++ " : ORIGIN = " ++ upperHex r.origin ++ ", LENGTH = " ++ upperHex r.size

/-- The three per-region tracking-symbol lines at the top of `SECTIONS`
(origin and size use the decimal `Display` form). -/
def trackLines (r : Region) : List String :=
  ["\t__" ++ r.name ++ "_origin = " ++ Nat.repr r.origin ++ ";",
   "\t__" ++ r.name ++ "_size = " ++ Nat.repr r.size ++ ";",
   "\t__" ++ r.name ++ "_used = 0;"]

/-- `ls.regions.values()` traversed in the iteration order `ro` (a list
of keys): the regions looked up by key, skipping keys not in the map. -/
def regionsInOrder (ls : LinkerScript) (ro : List String) : List Region :=
  ro.filterMap (fun k => ls.regions.lookup k)

/-- `ls.sections.values().cloned().collect()` in the iteration order `so`,
followed by the stable `sort_by` on `priority` (Rust's sort is stable;
`List.insertionSort` is the stable sort used as its model). -/
def sortedSections (ls : LinkerScript) (so : List String) : List Section :=
  List.insertionSort (fun a b => a.priority ≤ b.priority)
    (so.filterMap (fun k => ls.sections.lookup k))

/-- The rendered block of every section, in emission order. -/
def sectionBlocks (align : Nat) (ls : LinkerScript) (so : List String) : List (List String) :=
  (sortedSections ls so).map (renderSection align)

/-- `render` from `src/generate/link.rs`, as the list of emitted lines:
header, `MEMORY` block over the regions in iteration order `ro`,
`SECTIONS` block with the tracking symbols (same order) and the sorted
section blocks. -/
def renderLines (align : Nat) (ls : LinkerScript) (ro so : List String) : List String :=
  [headerText]
  ++ ["MEMORY \x7b"]
  ++ (regionsInOrder ls ro).map memoryLine
  ++ ["\x7d", "SECTIONS \x7b"]
  ++ ((regionsInOrder ls ro).map trackLines).flatten
  ++ (sectionBlocks align ls so).flatten
  ++ ["\x7d"]

/-- The rendered text: every line followed by the newline `writeln!`
appends. -/
def renderText (align : Nat) (ls : LinkerScript) (ro so : List String) : String :=
  String.join ((renderLines align ls ro so).map (fun l => l ++ "\n"))

/-- `REQ_SEC_NAMES` from `LinkerScript::write`. -/
def REQ_SEC_NAMES : List String := ["stack", "vector_table", "text", "data", "rodata", "bss"]

/-- The validation loop of `LinkerScript::write`: return the first name of
the given list that is not a key of `ls.sections`, as a `MissingSection`
error. -/
def checkRequired (ls : LinkerScript) : List String → Option LinkerError
  | [] => none
  | n :: rest =>
    if (ls.sections.lookup n).isSome then checkRequired ls rest
    else some (LinkerError.MissingSection n)

/-- `LinkerScript::write`: validate the six required sections, then render
into the caller-supplied sink.  The sink is modelled as the `String`
accumulated so far; on a validation failure it is returned unchanged. -/
def LinkerScript.write (ls : LinkerScript) (align : Nat) (ro so : List String) (sink : String) :
    Option LinkerError × String :=
  match checkRequired ls REQ_SEC_NAMES with
  | some e => (some e, sink)
  | none => (none, sink ++ renderText align ls ro so)

/-!
The concrete layout of the test `generate_ok` (and of the spec's §8
scenario): regions `FLASH` (origin 0x0, size 512) and `RAM`
(origin 0x20000000, size 128); sections stack→RAM, heap→RAM,
boot_config(512, "fcb")→FLASH, vector_table(FLASH, some RAM),
text(FLASH, some RAM), data(false, FLASH, some RAM),
rodata(false, FLASH, none), bss(false, FLASH, some RAM).
The word type is `u32`, so the alignment is 4.
-/

/-- The §8 scenario layout, built through the builder exactly as in the
`generate_ok` test. -/
def scenario : LinkerScript :=
  ((((((((((LinkerScript.new.region FLASH 0x0 512).2.region RAM 0x20000000 128).2.stack
    ⟨RAM⟩).2.heap ⟨RAM⟩).2.boot_config 512 "fcb" ⟨FLASH⟩).2.vector_table ⟨FLASH⟩
    (some ⟨RAM⟩)).2.text ⟨FLASH⟩ (some ⟨RAM⟩)).2.data false ⟨FLASH⟩ (some ⟨RAM⟩)).2.rodata
    false ⟨FLASH⟩ none).2.bss false ⟨FLASH⟩ (some ⟨RAM⟩)).2

/-- The scenario's section keys in declaration (insertion) order — one
possible `HashMap` iteration order. -/
def scenarioKeys : List String := scenario.sections.map Prod.fst

/-- The scenario's region keys in declaration (insertion) order. -/
def scenarioRegionKeys : List String := scenario.regions.map Prod.fst

/-!  Helper facts about the priority order used by the sort. -/

instance : IsTotal Section (fun a b => a.priority ≤ b.priority) :=
  ⟨fun a b => Int.le_total a.priority b.priority⟩

instance : IsTrans Section (fun a b => a.priority ≤ b.priority) :=
  ⟨fun _ _ _ h₁ h₂ => le_trans h₁ h₂⟩

instance : IsAntisymm Section (fun a b => a.priority < b.priority) :=
  ⟨fun _ _ h₁ h₂ => absurd h₂ (not_lt.mpr (le_of_lt h₁))⟩

/-- The sorted section list is sorted by (non-strict) priority. -/
lemma sorted_sortedSections (ls : LinkerScript) (so : List String) :
    List.Sorted (fun a b : Section => a.priority ≤ b.priority) (sortedSections ls so) :=
  List.sorted_insertionSort _ _

/-- Two iteration orders that are permutations of each other collect
permuted section lists, so the sorted lists are permutations. -/
lemma sortedSections_perm (ls : LinkerScript) {so so' : List String} (h : so.Perm so') :
    (sortedSections ls so).Perm (sortedSections ls so') := by
  unfold sortedSections
  exact (List.perm_insertionSort _ _).trans
    ((h.filterMap _).trans (List.perm_insertionSort _ _).symm)

/-- A sorted-by-`≤` list whose priorities are pairwise distinct is sorted
by `<`. -/
lemma sorted_lt_of_nodup_priorities {l : List Section}
    (hs : List.Sorted (fun a b : Section => a.priority ≤ b.priority) l)
    (hn : (l.map Section.priority).Nodup) :
    List.Sorted (fun a b : Section => a.priority < b.priority) l := by
  have hne : l.Pairwise (fun a b : Section => a.priority ≠ b.priority) := by
    simpa [List.Nodup, List.pairwise_map] using hn
  exact (List.Pairwise.and hs hne).imp (fun h => lt_of_le_of_ne h.1 h.2)

/-- When the priorities occurring in the layout are pairwise distinct, the
sorted section list does not depend on which permutation of the stored
keys the map iteration produced. -/
lemma sortedSections_eq_of_perm (ls : LinkerScript) {so so' : List String} (h : so.Perm so')
    (hn : ((sortedSections ls so').map Section.priority).Nodup) :
    sortedSections ls so = sortedSections ls so' := by
  have hperm := sortedSections_perm ls h
  have hn' : ((sortedSections ls so).map Section.priority).Nodup :=
    ((hperm.map Section.priority).nodup_iff).mpr hn
  exact List.eq_of_perm_of_sorted hperm
    (sorted_lt_of_nodup_priorities (sorted_sortedSections ls so) hn')
    (sorted_lt_of_nodup_priorities (sorted_sortedSections ls so') hn)

/-!  Claim theorems. -/

/-- C1 counterexample: in the §8 scenario (for the declaration-order
iteration of the section map) the last section block emitted in the
`SECTIONS` output is the **heap** block, at position 7, while the stack
block sits at position 6 — so the stack block is *not* the last block,
contrary to the claim. -/
theorem scenario_stack_block_not_last :
    ((sortedSections scenario scenarioKeys).map Section.name)[7]? = some "heap" ∧
    ((sortedSections scenario scenarioKeys).map Section.name)[6]? = some "stack" ∧
    ((sortedSections scenario scenarioKeys).map Section.name).getLast? = some "heap" ∧
    (sectionBlocks 4 scenario scenarioKeys).getLast? =
      some (renderHeapSection 4 (Section.heap ⟨RAM⟩)) ∧
    ("heap" == "stack") = false := by
  refine ⟨by decide, by decide, by decide, by decide, by decide⟩

/-- C1 (amended): in the rendered output of the §8 scenario — under every
possible iteration order of the section map — the **heap** section's
block is the last section block emitted, and the stack section's block is
the one immediately before it. -/
theorem scenario_heap_block_last (so : List String) (h : so.Perm scenarioKeys) :
    ((sortedSections scenario so).map Section.name) =
      ["fcb", "vector_table", "text", "data", "rodata", "bss", "stack", "heap"] ∧
    (sectionBlocks 4 scenario so).getLast? =
      some (renderHeapSection 4 (Section.heap ⟨RAM⟩)) := by
  have heq : sortedSections scenario so = sortedSections scenario scenarioKeys :=
    sortedSections_eq_of_perm scenario h (by decide)
  refine ⟨?_, ?_⟩
  · rw [heq]; decide
  · unfold sectionBlocks; rw [heq]; decide

/-- Witness for C1's amended theorem at the declaration-order iteration. -/
theorem scenario_heap_block_last_witness :
    scenarioKeys.Perm scenarioKeys ∧
    (((sortedSections scenario scenarioKeys).map Section.name) =
      ["fcb", "vector_table", "text", "data", "rodata", "bss", "stack", "heap"] ∧
    (sectionBlocks 4 scenario scenarioKeys).getLast? =
      some (renderHeapSection 4 (Section.heap ⟨RAM⟩))) :=
  ⟨List.Perm.refl _, scenario_heap_block_last scenarioKeys (List.Perm.refl _)⟩

/-- C2: the rendered text is **not** a function of the layout's insertion
order and values alone.  `["RAM", "FLASH"]` and `["FLASH", "RAM"]` are both
permutations of the scenario's stored region keys — both are possible
`HashMap` iteration orders — yet they render different text, and under the
first one the `MEMORY` block is not in declaration order (the declaration
order is `FLASH` then `RAM`). -/
theorem render_depends_on_iteration_order :
    (["RAM", "FLASH"] : List String).Perm scenarioRegionKeys ∧
    scenarioRegionKeys = [FLASH, RAM] ∧
    (renderLines 4 scenario ["RAM", "FLASH"] scenarioKeys ==
      renderLines 4 scenario ["FLASH", "RAM"] scenarioKeys) = false ∧
    ((regionsInOrder scenario ["RAM", "FLASH"]).map Region.name ==
      scenario.regions.map (fun p => p.2.name)) = false := by
  refine ⟨by decide, by decide, by decide, by decide⟩

/-- C3: the renderer ignores the `pfx` (source: `prefix`) flag entirely:
a `bss` section built with `pfx = true` renders a block identical to the
`pfx = false` one — the block is still named `.bss`, not `.TCM.bss` as
the claim (and the source's own field documentation) requires.  Only the
priority tier changes (104/4, 102/2, 103/3); the sizing strategy is
unchanged. -/
theorem pfx_flag_ignored_by_renderer :
    renderLinkerSection 4 (Section.bss true ⟨"TCM"⟩ none) =
      renderLinkerSection 4 (Section.bss false ⟨"TCM"⟩ none) ∧
    renderLinkerSection 4 (Section.data true ⟨"TCM"⟩ none) =
      renderLinkerSection 4 (Section.data false ⟨"TCM"⟩ none) ∧
    renderLinkerSection 4 (Section.rodata true ⟨"TCM"⟩ none) =
      renderLinkerSection 4 (Section.rodata false ⟨"TCM"⟩ none) ∧
    (renderLinkerSection 4 (Section.bss true ⟨"TCM"⟩ none))[0]? = some "\t.bss :" ∧
    ("\t.bss :" == "\t.TCM.bss :") = false ∧
    (Section.bss true ⟨"TCM"⟩ none).priority = 104 ∧
    (Section.bss false ⟨"TCM"⟩ none).priority = 4 ∧
    (Section.data true ⟨"TCM"⟩ none).priority = 102 ∧
    (Section.data false ⟨"TCM"⟩ none).priority = 2 ∧
    (Section.rodata true ⟨"TCM"⟩ none).priority = 103 ∧
    (Section.rodata false ⟨"TCM"⟩ none).priority = 3 ∧
    (Section.bss true ⟨"TCM"⟩ none).size = SectionSize.linker ∧
    (Section.bss false ⟨"TCM"⟩ none).size = SectionSize.linker := by
  refine ⟨rfl, rfl, rfl, by decide, by decide, by decide, by decide, by decide, by decide,
    by decide, by decide, rfl, rfl⟩

/-- C4: the named constructors assign exactly the canonical priorities
(boot_config −1, vector_table 0, text 1, data 2/102, rodata 3/103,
bss 4/104, stack `i32::MAX − 1`, heap `i32::MAX`), and the renderer emits
section blocks sorted by ascending priority: in the emitted block list
(`sortedSections`, which `renderLines` renders in order), a section with
strictly smaller priority appears at a strictly smaller index. -/
theorem canonical_priorities_and_sorted_emission :
    (∀ sz n v, (Section.boot_config sz n v).priority = -1) ∧
    (∀ v l, (Section.vector_table v l).priority = 0) ∧
    (∀ v l, (Section.text v l).priority = 1) ∧
    (∀ v l, (Section.data false v l).priority = 2) ∧
    (∀ v l, (Section.data true v l).priority = 102) ∧
    (∀ v l, (Section.rodata false v l).priority = 3) ∧
    (∀ v l, (Section.rodata true v l).priority = 103) ∧
    (∀ v l, (Section.bss false v l).priority = 4) ∧
    (∀ v l, (Section.bss true v l).priority = 104) ∧
    (∀ v, (Section.stack v).priority = 2147483646) ∧
    (∀ v, (Section.heap v).priority = 2147483647) ∧
    (∀ ls so, List.Sorted (fun a b : Section => a.priority ≤ b.priority)
      (sortedSections ls so)) ∧
    (∀ (ls : LinkerScript) (so : List String) (i j : Fin (sortedSections ls so).length),
      ((sortedSections ls so).get i).priority < ((sortedSections ls so).get j).priority →
      (i : Nat) < (j : Nat)) := by
  refine ⟨fun _ _ _ => rfl, fun _ _ => rfl, fun _ _ => rfl, fun _ _ => rfl, fun _ _ => rfl,
    fun _ _ => rfl, fun _ _ => rfl, fun _ _ => rfl, fun _ _ => rfl, fun _ => rfl, fun _ => rfl,
    sorted_sortedSections, ?_⟩
  intro ls so i j hlt
  by_contra hij
  rcases lt_or_eq_of_le (Nat.le_of_not_lt hij) with hji | hji
  · have hle := (sorted_sortedSections ls so).rel_get_of_lt (show j < i from hji)
    exact absurd hlt (not_lt.mpr hle)
  · have : i = j := Fin.ext hji.symm
    subst this
    exact absurd hlt (lt_irrefl _)

/-- Witness for C4: in the §8 scenario the `fcb` (priority −1) and
`vector_table` (priority 0) entries of the sorted list are at indices 0
and 1. -/
theorem canonical_priorities_and_sorted_emission_witness :
    ((sortedSections scenario scenarioKeys).get
        ⟨0, by decide⟩).priority <
      ((sortedSections scenario scenarioKeys).get ⟨1, by decide⟩).priority ∧
    (0 : Nat) < 1 :=
  ⟨by decide,
    canonical_priorities_and_sorted_emission.2.2.2.2.2.2.2.2.2.2.2.2 scenario scenarioKeys
      ⟨0, by decide⟩ ⟨1, by decide⟩ (by decide)⟩

/-- C5: a linker-computed section's block with an LMA binds the run region
to the VMA and the load region to the LMA (`> vma AT> lma`), emits the
`__load_{name}` symbol via `LOADADDR`, and then updates the usage
accumulators of **both** the VMA and the LMA region names; with no LMA it
binds only the VMA and updates only the VMA region's accumulator. -/
theorem lma_binding_and_used_updates (align : Nat) (s : Section) (l : RegionID) :
    (s.lma = some l →
      renderLinkerSection align s =
        linkerSectionHead align s ++
          ["\t\x7d > " ++ s.vma.id ++ " AT> " ++ l.id,
           "\t__load_" ++ s.name ++ " = LOADADDR(." ++ s.name ++ ");",
           "\t__" ++ s.vma.id ++ "_used = __" ++ s.vma.id ++ "_used + SIZEOF(." ++ s.name ++ ");",
           "\t__" ++ l.id ++ "_used = __" ++ l.id ++ "_used + SIZEOF(." ++ s.name ++ ");",
           ""]) ∧
    (s.lma = none →
      renderLinkerSection align s =
        linkerSectionHead align s ++
          ["\t\x7d > " ++ s.vma.id,
           "\t__" ++ s.vma.id ++ "_used = __" ++ s.vma.id ++ "_used + SIZEOF(." ++ s.name ++ ");",
           ""]) := by
  constructor <;> intro h <;> simp [renderLinkerSection, usedUpdate, h]

/-- Witness for C5: the `text(FLASH, lma = RAM)` section of the scenario,
rendered with `u32` alignment. -/
theorem lma_binding_and_used_updates_witness :
    (Section.text ⟨"FLASH"⟩ (some ⟨"RAM"⟩)).lma = some (⟨"RAM"⟩ : RegionID) ∧
    renderLinkerSection 4 (Section.text ⟨"FLASH"⟩ (some ⟨"RAM"⟩)) =
      ["\t.text :",
       "\t\x7b",
       "\t\t. = ALIGN(4);",
       "\t\t__start_text = .;",
       "\t\t*(.text .text.*);",
       "\t\t. = ALIGN(4);",
       "\t\t__end_text = .;",
       "\t\x7d > FLASH AT> RAM",
       "\t__load_text = LOADADDR(.text);",
       "\t__FLASH_used = __FLASH_used + SIZEOF(.text);",
       "\t__RAM_used = __RAM_used + SIZEOF(.text);",
       ""] :=
  ⟨rfl,
    ((lma_binding_and_used_updates 4 (Section.text ⟨"FLASH"⟩ (some ⟨"RAM"⟩)) ⟨"RAM"⟩).1
      rfl).trans (by decide)⟩

/-- The validation loop finds exactly the first name failing the lookup. -/
lemma checkRequired_eq_find (ls : LinkerScript) (L : List String) :
    checkRequired ls L =
      (L.find? (fun n => (ls.sections.lookup n).isNone)).map LinkerError.MissingSection := by
  induction L with
  | nil => rfl
  | cons n rest ih =>
    cases hl : (ls.sections.lookup n) with
    | none => simp [checkRequired, hl, List.find?_cons_of_pos, Option.isNone]
    | some s =>
      rw [show checkRequired ls (n :: rest) = checkRequired ls rest by
        simp [checkRequired, hl], ih, List.find?_cons_of_neg]
      simp [hl]

/-- The validation loop succeeds exactly when every listed name is
present. -/
lemma checkRequired_eq_none_iff (ls : LinkerScript) (L : List String) :
    checkRequired ls L = none ↔ ∀ n ∈ L, (ls.sections.lookup n).isSome := by
  induction L with
  | nil => simp [checkRequired]
  | cons n rest ih =>
    by_cases hl : (ls.sections.lookup n).isSome
    · rw [show checkRequired ls (n :: rest) = checkRequired ls rest by
        simp [checkRequired, hl], ih]
      constructor
      · intro h m hm
        rcases List.mem_cons.mp hm with rfl | hm'
        · exact hl
        · exact h m hm'
      · intro h m hm
        exact h m (List.mem_cons_of_mem _ hm)
    · rw [show checkRequired ls (n :: rest) = some (LinkerError.MissingSection n) by
        simp [checkRequired, hl]]
      constructor
      · intro h
        exact absurd h (by simp)
      · intro h
        exact absurd (h n (List.mem_cons_self _ _)) hl

/-- The error component of `write` is exactly the validation result. -/
lemma write_fst (ls : LinkerScript) (align : Nat) (ro so : List String) (sink : String) :
    (ls.write align ro so sink).1 = checkRequired ls REQ_SEC_NAMES := by
  unfold LinkerScript.write
  cases h : checkRequired ls REQ_SEC_NAMES <;> simp [h]

/-- C6: `write` fails with `MissingSection(name)` exactly when one of the
six mandatory names `stack`, `vector_table`, `text`, `data`, `rodata`,
`bss` is absent; the reported name is the first missing one in that fixed
order (no aggregation); heap and boot-config sections are not in the
required list; and on a validation failure the caller-supplied sink is
returned unchanged (nothing rendered into it). -/
theorem write_missing_section_validation (ls : LinkerScript) (align : Nat)
    (ro so : List String) (sink : String) :
    ((ls.write align ro so sink).1 =
      ((["stack", "vector_table", "text", "data", "rodata", "bss"] : List String).find?
        (fun n => (ls.sections.lookup n).isNone)).map LinkerError.MissingSection) ∧
    ((ls.write align ro so sink).1 = none ↔
      ∀ n ∈ (["stack", "vector_table", "text", "data", "rodata", "bss"] : List String),
        (ls.sections.lookup n).isSome) ∧
    (REQ_SEC_NAMES.contains "heap") = false ∧
    ((ls.write align ro so sink).2 =
      if (ls.write align ro so sink).1 = none then sink ++ renderText align ls ro so
      else sink) := by
  refine ⟨?_, ?_, by decide, ?_⟩
  · rw [write_fst]
    exact checkRequired_eq_find ls REQ_SEC_NAMES
  · rw [write_fst]
    exact checkRequired_eq_none_iff ls REQ_SEC_NAMES
  · unfold LinkerScript.write
    cases h : checkRequired ls REQ_SEC_NAMES <;> simp [write_fst, h]

/-- Witness for C6: the full scenario passes validation and renders; a
layout missing only `vector_table` fails with exactly
`MissingSection "vector_table"` and leaves the sink `"sink"` untouched. -/
theorem write_missing_section_validation_witness :
    (scenario.write 4 scenarioRegionKeys scenarioKeys "").1 =
      ((["stack", "vector_table", "text", "data", "rodata", "bss"] : List String).find?
        (fun n => (scenario.sections.lookup n).isNone)).map LinkerError.MissingSection ∧
    ((LinkerScript.new.stack ⟨"RAM"⟩).2.write 4 [] [] "sink").2 =
      (if ((LinkerScript.new.stack ⟨"RAM"⟩).2.write 4 [] [] "sink").1 = none then
        "sink" ++ renderText 4 (LinkerScript.new.stack ⟨"RAM"⟩).2 [] []
      else "sink") :=
  ⟨(write_missing_section_validation scenario 4 scenarioRegionKeys scenarioKeys "").1,
    (write_missing_section_validation (LinkerScript.new.stack ⟨"RAM"⟩).2 4 [] [] "sink").2.2.2⟩

/-- C7: a stack-sized section's block sets the location counter to
`__{vma}_origin + __{vma}_used`, aligns, marks `__end_{name}` there, then
advances to `__{vma}_origin + __{vma}_size` and marks `__start_{name}`
there — start and end reversed relative to other sections — and contains
no `__{r}_used = __{r}_used + SIZEOF(.{n});` accumulator update for any
region `r` and any section name `n`. -/
theorem stack_section_rendering (align : Nat) (s : Section) :
    renderStackSection align s =
      ["\t." ++ s.name ++ " :",
       "\t\x7b",
       "\t\t. = __" ++ s.vma.id ++ "_origin + __" ++ s.vma.id ++ "_used;",
       "\t\t. = ALIGN(" ++ Nat.repr align ++ ");",
       "\t\t__end_" ++ s.name ++ " = .;",
       "\t\t. = __" ++ s.vma.id ++ "_origin + __" ++ s.vma.id ++ "_size;",
       "\t\t__start_" ++ s.name ++ " = .;",
       "\t\x7d > " ++ s.vma.id,
       ""] ∧
    (∀ r n : String,
      (renderStackSection align s).count
        ("\t__" ++ r ++ "_used = __" ++ r ++ "_used + SIZEOF(." ++ n ++ ");") = 0) := by
  refine ⟨rfl, ?_⟩
  intro r n
  rw [List.count_eq_zero]
  intro hmem
  have hchars : ∀ x ∈ renderStackSection align s, x.data.take 2 ≠ ['\t', '_'] := by
    intro x hx
    simp only [renderStackSection, List.mem_cons, List.not_mem_nil, or_false] at hx
    rcases hx with h|h|h|h|h|h|h|h|h <;> subst h <;>
      simp [String.data_append, List.take]
  have h2 : ("\t__" ++ r ++ "_used = __" ++ r ++ "_used + SIZEOF(." ++ n ++ ");").data.take 2 =
      ['\t', '_'] := by
    simp [String.data_append, List.take]
  exact hchars _ hmem h2

/-- Witness for C7 (no hypotheses in the main theorem; this instantiates
it on the scenario's stack section). -/
theorem stack_section_rendering_witness :
    renderStackSection 4 (Section.stack ⟨"RAM"⟩) =
      ["\t.stack :",
       "\t\x7b",
       "\t\t. = __RAM_origin + __RAM_used;",
       "\t\t. = ALIGN(4);",
       "\t\t__end_stack = .;",
       "\t\t. = __RAM_origin + __RAM_size;",
       "\t\t__start_stack = .;",
       "\t\x7d > RAM",
       ""] ∧
    (renderStackSection 4 (Section.stack ⟨"RAM"⟩)).count
      ("\t__RAM_used = __RAM_used + SIZEOF(.stack);") = 0 :=
  ⟨((stack_section_rendering 4 (Section.stack ⟨"RAM"⟩)).1).trans (by decide),
    by
      have h := (stack_section_rendering 4 (Section.stack ⟨"RAM"⟩)).2 "RAM" "stack"
      exact (by decide : ("\t__RAM_used = __RAM_used + SIZEOF(.stack);" :
        String) = "\t__" ++ "RAM" ++ "_used = __" ++ "RAM" ++ "_used + SIZEOF(." ++ "stack" ++ ");") ▸ h⟩

/-- Looking up a key that was just appended to an association list always
succeeds. -/
lemma lookup_append_self {β : Type} (l : List (String × β)) (a : String) (b : β) :
    ((l ++ [(a, b)]).lookup a).isSome = true := by
  induction l with
  | nil => simp [List.lookup]
  | cons hd tl ih =>
    rcases hd with ⟨k, v⟩
    by_cases hk : (a == k)
    · simp [List.lookup, hk]
    · simp [List.lookup, hk, ih]

/-- `add_section` on an already-present name reports the duplicate and
leaves the state untouched. -/
lemma addSection_of_contains (ls : LinkerScript) (s : Section)
    (h : (ls.sections.lookup s.name).isSome = true) :
    ls.addSection s = (Except.error (LinkerError.DuplicateSection s.name), ls) := by
  simp [LinkerScript.addSection, h]

/-- After any `add_section` call (successful or not), the section's name
is a key of the map. -/
lemma addSection_contains_self (ls : LinkerScript) (s : Section) :
    (((ls.addSection s).2).sections.lookup s.name).isSome = true := by
  unfold LinkerScript.addSection
  by_cases h : (ls.sections.lookup s.name).isSome
  · simp [h]
  · simp [h, lookup_append_self ls.sections s.name s]

/-- Two consecutive `add_section`s whose sections carry the same stored
name: the second always fails and leaves the state unchanged. -/
lemma addSection_twice_same_name (ls : LinkerScript) (s₁ s₂ : Section)
    (h : s₁.name = s₂.name) :
    ((ls.addSection s₁).2.addSection s₂) =
      (Except.error (LinkerError.DuplicateSection s₂.name), (ls.addSection s₁).2) := by
  apply addSection_of_contains
  rw [← h]
  exact addSection_contains_self ls s₁

/-- C8: declaring a second section whose canonical name is already taken
always fails with `DuplicateSection(name)` and leaves the section map
unchanged; in particular calling `data` (or `rodata`, `bss`) twice —
even with different `pfx` values — or any named constructor twice fails
this way, because the stored name is the same. -/
theorem duplicate_section_rejected :
    (∀ (ls : LinkerScript) (s : Section), (ls.sections.lookup s.name).isSome = true →
      ls.addSection s = (Except.error (LinkerError.DuplicateSection s.name), ls)) ∧
    (∀ (ls : LinkerScript) (p₁ p₂ : Bool) (v₁ v₂ : RegionID) (l₁ l₂ : Option RegionID),
      ((ls.data p₁ v₁ l₁).2.data p₂ v₂ l₂) =
        (Except.error (LinkerError.DuplicateSection "data"), (ls.data p₁ v₁ l₁).2)) ∧
    (∀ (ls : LinkerScript) (p₁ p₂ : Bool) (v₁ v₂ : RegionID) (l₁ l₂ : Option RegionID),
      ((ls.rodata p₁ v₁ l₁).2.rodata p₂ v₂ l₂) =
        (Except.error (LinkerError.DuplicateSection "rodata"), (ls.rodata p₁ v₁ l₁).2)) ∧
    (∀ (ls : LinkerScript) (p₁ p₂ : Bool) (v₁ v₂ : RegionID) (l₁ l₂ : Option RegionID),
      ((ls.bss p₁ v₁ l₁).2.bss p₂ v₂ l₂) =
        (Except.error (LinkerError.DuplicateSection "bss"), (ls.bss p₁ v₁ l₁).2)) ∧
    (∀ (ls : LinkerScript) (v₁ v₂ : RegionID) (l₁ l₂ : Option RegionID),
      ((ls.text v₁ l₁).2.text v₂ l₂) =
        (Except.error (LinkerError.DuplicateSection "text"), (ls.text v₁ l₁).2)) := by
  refine ⟨addSection_of_contains, ?_, ?_, ?_, ?_⟩
  · intro ls p₁ p₂ v₁ v₂ l₁ l₂
    exact addSection_twice_same_name ls (Section.data p₁ v₁ l₁) (Section.data p₂ v₂ l₂) rfl
  · intro ls p₁ p₂ v₁ v₂ l₁ l₂
    exact addSection_twice_same_name ls (Section.rodata p₁ v₁ l₁) (Section.rodata p₂ v₂ l₂) rfl
  · intro ls p₁ p₂ v₁ v₂ l₁ l₂
    exact addSection_twice_same_name ls (Section.bss p₁ v₁ l₁) (Section.bss p₂ v₂ l₂) rfl
  · intro ls v₁ v₂ l₁ l₂
    exact addSection_twice_same_name ls (Section.text v₁ l₁) (Section.text v₂ l₂) rfl

/-- Witness for C8: in the full scenario `"data"` is already declared, so
re-adding a (differently-prefixed) data section fails and leaves the
layout unchanged. -/
theorem duplicate_section_rejected_witness :
    (scenario.sections.lookup (Section.data true ⟨"X"⟩ none).name).isSome = true ∧
    scenario.addSection (Section.data true ⟨"X"⟩ none) =
      (Except.error (LinkerError.DuplicateSection "data"), scenario) :=
  ⟨by decide, duplicate_section_rejected.1 scenario (Section.data true ⟨"X"⟩ none) (by decide)⟩

/-- C9: region identifiers are never cross-validated: every section
constructor accepts an arbitrary `RegionID` (declared or not, in this or
any other layout) as `vma`/`lma` and succeeds whenever the section name is
fresh; no builder or `write` operation ever produces `UnknownVMA` or
`UnknownLMA` (builder errors are only duplicates, `write` errors only
`MissingSection`); and the renderer splices the (possibly dangling) region
name verbatim into the emitted block instead of failing. -/
theorem dangling_region_ids_accepted :
    (∀ (ls : LinkerScript) (v : RegionID), ls.sections.lookup "stack" = none →
      (ls.stack v).1 = Except.ok ⟨"stack"⟩) ∧
    (∀ (ls : LinkerScript) (v : RegionID), ls.sections.lookup "heap" = none →
      (ls.heap v).1 = Except.ok ⟨"heap"⟩) ∧
    (∀ (ls : LinkerScript) (sz : Nat) (n : String) (v : RegionID),
      ls.sections.lookup n = none → (ls.boot_config sz n v).1 = Except.ok ⟨n⟩) ∧
    (∀ (ls : LinkerScript) (v : RegionID) (l : Option RegionID),
      ls.sections.lookup "vector_table" = none →
      (ls.vector_table v l).1 = Except.ok ⟨"vector_table"⟩) ∧
    (∀ (ls : LinkerScript) (v : RegionID) (l : Option RegionID),
      ls.sections.lookup "text" = none → (ls.text v l).1 = Except.ok ⟨"text"⟩) ∧
    (∀ (ls : LinkerScript) (p : Bool) (v : RegionID) (l : Option RegionID),
      ls.sections.lookup "data" = none → (ls.data p v l).1 = Except.ok ⟨"data"⟩) ∧
    (∀ (ls : LinkerScript) (p : Bool) (v : RegionID) (l : Option RegionID),
      ls.sections.lookup "rodata" = none → (ls.rodata p v l).1 = Except.ok ⟨"rodata"⟩) ∧
    (∀ (ls : LinkerScript) (p : Bool) (v : RegionID) (l : Option RegionID),
      ls.sections.lookup "bss" = none → (ls.bss p v l).1 = Except.ok ⟨"bss"⟩) ∧
    (∀ (ls : LinkerScript) (s : Section),
      (ls.addSection s).1 = Except.ok ⟨s.name⟩ ∨
      (ls.addSection s).1 = Except.error (LinkerError.DuplicateSection s.name)) ∧
    (∀ (ls : LinkerScript) (n : String) (o sz : Nat),
      (ls.region n o sz).1 = Except.ok ⟨n⟩ ∨
      (ls.region n o sz).1 = Except.error (LinkerError.DuplicateRegion n)) ∧
    (∀ (ls : LinkerScript) (align : Nat) (ro so : List String) (sink : String),
      (ls.write align ro so sink).1 = none ∨
      ∃ n, (ls.write align ro so sink).1 = some (LinkerError.MissingSection n)) ∧
    (∀ (align : Nat) (s : Section),
      ("\t\x7d > " ++ s.vma.id) ∈ renderStackSection align s) ∧
    (∀ (align : Nat) (s : Section),
      ("\t\x7d > " ++ s.vma.id) ∈ renderHeapSection align s) ∧
    (∀ (align : Nat) (s : Section) (l : RegionID), s.lma = some l →
      ("\t\x7d > " ++ s.vma.id ++ " AT> " ++ l.id) ∈ renderLinkerSection align s) ∧
    (∀ (align : Nat) (s : Section), s.lma = none →
      ("\t\x7d > " ++ s.vma.id) ∈ renderLinkerSection align s) := by
  refine ⟨?_, ?_, ?_, ?_, ?_, ?_, ?_, ?_, ?_, ?_, ?_, ?_, ?_, ?_, ?_⟩
  · intro ls v h
    simp [LinkerScript.stack, LinkerScript.addSection, Section.stack, h]
  · intro ls v h
    simp [LinkerScript.heap, LinkerScript.addSection, Section.heap, h]
  · intro ls sz n v h
    simp [LinkerScript.boot_config, LinkerScript.addSection, Section.boot_config, h]
  · intro ls v l h
    simp [LinkerScript.vector_table, LinkerScript.addSection, Section.vector_table, h]
  · intro ls v l h
    simp [LinkerScript.text, LinkerScript.addSection, Section.text, h]
  · intro ls p v l h
    simp [LinkerScript.data, LinkerScript.addSection, Section.data, h]
  · intro ls p v l h
    simp [LinkerScript.rodata, LinkerScript.addSection, Section.rodata, h]
  · intro ls p v l h
    simp [LinkerScript.bss, LinkerScript.addSection, Section.bss, h]
  · intro ls s
    by_cases h : (ls.sections.lookup s.name).isSome
    · right; simp [LinkerScript.addSection, h]
    · left; simp [LinkerScript.addSection, h]
  · intro ls n o sz
    by_cases h : (ls.regions.lookup n).isSome
    · right; simp [LinkerScript.region, h]
    · left; simp [LinkerScript.region, h]
  · intro ls align ro so sink
    rw [write_fst, checkRequired_eq_find]
    cases h : REQ_SEC_NAMES.find? (fun n => (ls.sections.lookup n).isNone) with
    | none => left; rfl
    | some n => right; exact ⟨n, rfl⟩
  · intro align s
    simp [renderStackSection]
  · intro align s
    simp [renderHeapSection]
  · intro align s l h
    simp [renderLinkerSection, h]
  · intro align s h
    simp [renderLinkerSection, h]

/-- Witness for C9: a fresh layout accepts a `vector_table` whose VMA and
LMA name a region that was never declared anywhere. -/
theorem dangling_region_ids_accepted_witness :
    LinkerScript.new.sections.lookup "vector_table" = none ∧
    (LinkerScript.new.vector_table ⟨"NEVER_DECLARED"⟩ (some ⟨"ALSO_UNDECLARED"⟩)).1 =
      Except.ok ⟨"vector_table"⟩ :=
  ⟨rfl, dangling_region_ids_accepted.2.2.2.1 LinkerScript.new ⟨"NEVER_DECLARED"⟩
    (some ⟨"ALSO_UNDECLARED"⟩) rfl⟩

/-- C10: `vector_table` is the only section constructor that sets a
preamble, namely `LONG(__start_stack);`, and in every rendering of the
vector-table section that line appears immediately after the
`__start_vector_table = .;` assignment and immediately before the
input-section collection `*(.vector_table .vector_table.*);`. -/
theorem vector_table_preamble_first_word :
    (∀ v l, (Section.vector_table v l).linker_preamble = some "LONG(__start_stack);") ∧
    (∀ v, (Section.stack v).linker_preamble = none) ∧
    (∀ v, (Section.heap v).linker_preamble = none) ∧
    (∀ sz n v, (Section.boot_config sz n v).linker_preamble = none) ∧
    (∀ v l, (Section.text v l).linker_preamble = none) ∧
    (∀ p v l, (Section.data p v l).linker_preamble = none) ∧
    (∀ p v l, (Section.rodata p v l).linker_preamble = none) ∧
    (∀ p v l, (Section.bss p v l).linker_preamble = none) ∧
    (∀ (align : Nat) (v : RegionID) (l : Option RegionID),
      renderLinkerSection align (Section.vector_table v l) =
        ["\t.vector_table :",
         "\t\x7b",
         "\t\t. = ALIGN(" ++ Nat.repr align ++ ");",
         "\t\t__start_vector_table = .;",
         "\t\tLONG(__start_stack);",
         "\t\t*(.vector_table .vector_table.*);",
         "\t\t. = ALIGN(" ++ Nat.repr align ++ ");",
         "\t\t__end_vector_table = .;"]
        ++ (match l with
            | some lr =>
              ["\t\x7d > " ++ v.id ++ " AT> " ++ lr.id,
               "\t__load_vector_table = LOADADDR(.vector_table);",
               "\t__" ++ v.id ++ "_used = __" ++ v.id ++ "_used + SIZEOF(.vector_table);",
               "\t__" ++ lr.id ++ "_used = __" ++ lr.id ++ "_used + SIZEOF(.vector_table);"]
            | none =>
              ["\t\x7d > " ++ v.id,
               "\t__" ++ v.id ++ "_used = __" ++ v.id ++ "_used + SIZEOF(.vector_table);"])
        ++ [""]) := by
  refine ⟨fun _ _ => rfl, fun _ => rfl, fun _ => rfl, fun _ _ _ => rfl, fun _ _ => rfl,
    fun _ _ _ => rfl, fun _ _ _ => rfl, fun _ _ _ => rfl, ?_⟩
  intro align v l
  cases l <;>
    simp [renderLinkerSection, linkerSectionHead, usedUpdate, Section.vector_table,
      String.append_assoc]

end ImxrtRtGen
